import Mathlib

/-!
Verification of the core pipeline logic of the ads-placement-excluder
repository, as a shallow embedding in Lean.

The embedded functions follow the Python sources:
  * src/google_ads_accounts/main.py   (account config stage)
  * src/google_ads_report/main.py     (report stage)
  * src/youtube_channel/main.py       (enrichment stage)
  * src/google_ads_excluder/main.py   (excluder stage)

External collaborators (Google Sheets, BigQuery, the YouTube Data API,
the Google Ads API, GCS, Pub/Sub) are modelled by explicit parameters:
sheet reads become list arguments, BigQuery tables become lists of rows,
and the evaluation of a SQL WHERE fragment over the metadata table
becomes an explicit boolean-valued function on metadata rows.
-/

namespace APE

/-! ## FilterCompiler

`youtube_filters_to_sql_string` (src/google_ads_excluder/main.py, lines
168-187) keeps exactly the rows of length 3 and joins them in order with
" AND ".  `gads_filters_to_gaql_string`
(src/google_ads_accounts/main.py, lines 146-166) performs no length
check: it indexes row[0], row[1], row[2] directly (an IndexError on a
shorter row, modelled as `none`) and prepends "metrics." to the field.
-/

/-- One iteration of the loop in `youtube_filters_to_sql_string`: a row
is turned into a condition exactly when `len(row) == 3`, via
`f'\x7brow[0]\x7d \x7brow[1]\x7d \x7brow[2]\x7d'`; other rows are skipped. -/
def conditionOfRow (row : List String) : Option String :=
  match row with
  | [f, op, v] => some (f ++ " " ++ op ++ " " ++ v)
  | _ => none

/-- `youtube_filters_to_sql_string` from src/google_ads_excluder/main.py. -/
def youtube_filters_to_sql_string (config_filters : List (List String)) : String :=
  String.intercalate " AND " (config_filters.filterMap conditionOfRow)

/-- One iteration of the loop in `gads_filters_to_gaql_string`:
`f'metrics.\x7brow[0]\x7d \x7brow[1]\x7d \x7brow[2]\x7d'` — Python indexing raises
IndexError when the row has fewer than 3 cells (modelled as `none`);
cells beyond the third are ignored. -/
def gadsConditionOfRow (row : List String) : Option String :=
  match row with
  | f :: op :: v :: _ => some ("metrics." ++ f ++ " " ++ op ++ " " ++ v)
  | _ => none

/-- The condition-collecting loop of `gads_filters_to_gaql_string`:
`none` as soon as some row raises. -/
def gadsConditions : List (List String) → Option (List String)
  | [] => some []
  | row :: rest =>
    match gadsConditionOfRow row, gadsConditions rest with
    | some c, some cs => some (c :: cs)
    | _, _ => none

/-- `gads_filters_to_gaql_string` from src/google_ads_accounts/main.py:
`none` models the IndexError raised on a row with fewer than 3 cells. -/
def gads_filters_to_gaql_string (config_filters : List (List String)) : Option String :=
  (gadsConditions config_filters).map (String.intercalate " AND ")

/-- `get_config_filters` from src/google_ads_excluder/main.py (lines
120-142), with the sheet read abstracted into the `rows` argument: when
the compiled filter string is empty it raises
`BadRequest("Filters are not set")`, modelled as `Except.error`. -/
def get_config_filters (rows : List (List String)) : Except String String :=
  let filters := youtube_filters_to_sql_string rows
  if filters.length == 0 then Except.error "Filters are not set"
  else Except.ok filters

/-! ## Dates and the Google Ads report query
(src/google_ads_report/main.py) -/

/-- A Gregorian calendar date, as held by Python's `datetime`. -/
structure Date where
  year : Nat
  month : Nat
  day : Nat
deriving DecidableEq

/-- Gregorian leap-year rule, as used by Python's `datetime`. -/
def isLeapYear (y : Nat) : Bool :=
  (y % 4 == 0 && y % 100 != 0) || y % 400 == 0

/-- Number of days in a month of the Gregorian calendar. -/
def daysInMonth (y m : Nat) : Nat :=
  if m = 2 then (if isLeapYear y then 29 else 28)
  else if m = 4 ∨ m = 6 ∨ m = 9 ∨ m = 11 then 30
  else 31

/-- The previous calendar day. -/
def prevDay : Date → Date
  | ⟨y, m, d⟩ =>
    if 1 < d then ⟨y, m, d - 1⟩
    else if 1 < m then ⟨y, m - 1, daysInMonth y (m - 1)⟩
    else ⟨y - 1, 12, 31⟩

/-- `today - timedelta(days=n)`: exact day arithmetic of Python's
`datetime` subtraction. -/
def subDays : Date → Nat → Date
  | dt, 0 => dt
  | dt, n + 1 => subDays (prevDay dt) n

/-- Left-pad the decimal representation of `n` with zeros to `width`. -/
def natToPadded (n : Nat) (width : Nat) : String :=
  let s := Nat.repr n
  String.mk (List.replicate (width - s.length) '0' ++ s.data)

/-- `strftime('%Y-%m-%d')`. -/
def formatDate (d : Date) : String :=
  natToPadded d.year 4 ++ "-" ++ natToPadded d.month 2 ++ "-" ++ natToPadded d.day 2

/-- `get_query_dates` from src/google_ads_report/main.py (lines
209-233): `(today - timedelta(days=lookback_days), today)`, each
formatted with `%Y-%m-%d`.  The Python `today` parameter defaults to
`datetime.today()`; here it is always explicit. -/
def get_query_dates (lookback_days : Nat) (today : Date) : String × String :=
  (formatDate (subDays today lookback_days), formatDate today)

/-- The fixed text of the report query template up to the opening quote
of the first interpolated date. -/
def reportQueryBody : String :=
  "\n        SELECT\n            customer.id,\n            group_placement_view.placement,\n            group_placement_view.target_url,\n            metrics.impressions,\n            metrics.cost_micros,\n            metrics.conversions,\n            metrics.video_views,\n            metrics.video_view_rate,\n            metrics.clicks,\n            metrics.average_cpm,\n            metrics.ctr,\n            metrics.all_conversions_from_interactions_rate\n        FROM\n            group_placement_view\n        WHERE group_placement_view.placement_type = \"YOUTUBE_CHANNEL\"\n            AND campaign.advertising_channel_type = \"VIDEO\"\n            AND segments.date BETWEEN \""

/-- `get_report_query` from src/google_ads_report/main.py (lines
167-206): `where_query` is the empty string when `gads_filters is None`
and `'AND ' + gads_filters` otherwise, and the query is the f-string
template with the two dates and `where_query` interpolated. -/
def get_report_query (lookback_days : Nat) (gads_filters : Option String)
    (today : Date) : String :=
  let dates := get_query_dates lookback_days today
  let where_query : String :=
    match gads_filters with
    | none => ""
    | some f => "AND " ++ f
  (reportQueryBody ++ dates.1 ++ "\" AND \"" ++ dates.2)
    ++ ("\"\n            " ++ where_query ++ "\n    ")

/-- Python's `str.strip()`: remove whitespace from both ends. -/
def pyStrip (s : String) : String :=
  String.mk (((s.data.dropWhile Char.isWhitespace).reverse.dropWhile
    Char.isWhitespace).reverse)

/-- Python's `s[-3:]`: the last three characters. -/
def lastThree (s : String) : String :=
  String.mk ((s.data.reverse.take 3).reverse)

/-! ## ReconciliationEngine
(`get_spam_placements`, src/google_ads_excluder/main.py, lines 190-242)

The BigQuery tables are modelled as lists of rows, and the query

    SELECT DISTINCT Yt.channel_id
    FROM google_ads_report AS Ads
    LEFT JOIN youtube_channel AS Yt USING(channel_id)
    LEFT JOIN google_ads_exclusion AS Excluded USING(channel_id)
    WHERE Ads.customer_id = c
      AND Excluded.channel_id IS NULL
      AND (Excluded.customer_id = c OR Excluded.customer_id IS NULL)
      AND filters

is given its standard SQL semantics.  The `filters` fragment produced by
`youtube_filters_to_sql_string` is an AND-conjunction of comparisons on
columns of the `youtube_channel` table; its evaluation is delegated to
BigQuery, so it is modelled by an arbitrary boolean-valued function
`filterHolds` on metadata rows.  On a NULL-extended metadata row every
comparison of the fragment evaluates to NULL under SQL three-valued
logic, so the conjunction is never TRUE there: the model evaluates the
fragment to `false` on `none`.
-/

/-- A row of the `google_ads_report` table (placement report, written by
the report stage). -/
structure AdsRow where
  customer_id : String
  channel_id : String
deriving DecidableEq

/-- A row of the `youtube_channel` table (channel metadata, written by
the enrichment stage). -/
structure YtRow where
  channel_id : String
  view_count : Option Int
  subscriber_count : Option Int
  video_count : Option Int
deriving DecidableEq

/-- A row of the `google_ads_exclusion` table (the durable exclusion
history, appended by `write_results_to_gcs`). -/
structure ExclusionRow where
  channel_id : String
  customer_id : String
deriving DecidableEq

/-- SQL LEFT JOIN, per left row: the matching right rows, or the single
NULL-extended row when there is no match. -/
def leftJoinMatches {β : Type} (ms : List β) : List (Option β) :=
  if ms.isEmpty then [none] else ms.map some

/-- The FROM clause of the query: `google_ads_report` left-joined with
`youtube_channel` and `google_ads_exclusion`, both `USING(channel_id)`. -/
def joinedRows (report : List AdsRow) (yt : List YtRow)
    (excluded : List ExclusionRow) :
    List (AdsRow × Option YtRow × Option ExclusionRow) :=
  report.flatMap (fun a =>
    (leftJoinMatches (yt.filter (fun y => y.channel_id == a.channel_id))).flatMap
      (fun oy =>
        (leftJoinMatches (excluded.filter
            (fun e => e.channel_id == a.channel_id))).map
          (fun oe => (a, oy, oe))))

/-- The WHERE clause of the query.  `Excluded.channel_id IS NULL` holds
exactly on the NULL-extended exclusion rows; the `Excluded.customer_id`
disjunction is written out as in the source; the `filters` fragment
holds only on matched metadata rows (see the section comment). -/
def whereClause (customer : String) (filterHolds : YtRow → Bool) :
    AdsRow × Option YtRow × Option ExclusionRow → Bool
  | (a, oy, oe) =>
    a.customer_id == customer
      && oe.isNone
      && (match oe with
          | some e => e.customer_id == customer
          | none => true)
      && (match oy with
          | some y => filterHolds y
          | none => false)

/-- `SELECT DISTINCT Yt.channel_id` over the rows passing the WHERE
clause (NULL when the metadata row is NULL-extended). -/
def spamIds (customer : String) (filterHolds : YtRow → Bool)
    (report : List AdsRow) (yt : List YtRow) (excluded : List ExclusionRow) :
    List (Option String) :=
  (((joinedRows report yt excluded).filter (whereClause customer filterHolds)).map
    (fun r => r.2.1.map YtRow.channel_id)).dedup

/-- `get_spam_placements`: `None` when the query returns zero rows
("There is nothing to update"), otherwise the list of channel ids. -/
def get_spam_placements (customer : String) (filterHolds : YtRow → Bool)
    (report : List AdsRow) (yt : List YtRow) (excluded : List ExclusionRow) :
    Option (List (Option String)) :=
  if (spamIds customer filterHolds report yt excluded).isEmpty then none
  else some (spamIds customer filterHolds report yt excluded)

/-! ## The Excluder stage as a trace of external effects
(`run`, `exclude_placements_in_gads`, `write_results_to_gcs`,
src/google_ads_excluder/main.py) -/

/-- The externally visible effects of one Excluder run, in order. -/
inductive Action where
  /-- The BigQuery read performed by `get_spam_placements`. -/
  | bigQueryFetch (customer : String) : Action
  /-- The `mutate_shared_criteria` call of `exclude_placements_in_gads`
  (the irreversible ad-platform mutation). -/
  | adsMutation (placements : List (Option String)) : Action
  /-- The `write_results_to_gcs` append to the exclusion history. -/
  | historyAppend (customer : String) (placements : List (Option String)) : Action
deriving DecidableEq

/-- The effect trace of `run` (lines 96-111): the BigQuery read, then —
when placements were found — the ad-platform mutation of
`exclude_placements_in_gads` (guarded by `placements_len > 0`, lines
286-296) followed by the history append of `write_results_to_gcs`
(guarded by `number_of_rows > 0`, lines 321-331). -/
def excluderTrace (customer : String) (filterHolds : YtRow → Bool)
    (report : List AdsRow) (yt : List YtRow) (excluded : List ExclusionRow) :
    List Action :=
  Action.bigQueryFetch customer ::
    match get_spam_placements customer filterHolds report yt excluded with
    | none => []
    | some ps =>
      (if 0 < ps.length then [Action.adsMutation ps] else [])
        ++ (if 0 < ps.length then [Action.historyAppend customer ps] else [])

/-- The exclusion-history rows written by `write_results_to_gcs` for the
returned placements (one row per channel id; the written `customer_id`
is the run's customer). -/
def appendedRecords (customer : String) (ps : List (Option String)) :
    List ExclusionRow :=
  ps.filterMap (fun oc => oc.map (fun c =>
    { channel_id := c, customer_id := customer }))

/-- Effect of one action on the exclusion-history table: only
`historyAppend` changes it. -/
def applyAction (excluded : List ExclusionRow) : Action → List ExclusionRow
  | Action.bigQueryFetch _ => excluded
  | Action.adsMutation _ => excluded
  | Action.historyAppend c ps => excluded ++ appendedRecords c ps

/-- Replay a prefix of the effect trace on the exclusion history (a
crash after `k` effects leaves the history at
`applyActions (trace.take k) excluded`). -/
def applyActions (acts : List Action) (excluded : List ExclusionRow) :
    List ExclusionRow :=
  acts.foldl applyAction excluded

/-- `run` of src/google_ads_excluder/main.py including the
`get_config_filters` step: a raised `BadRequest` aborts the stage before
any of the traced effects.  `filterSem` gives the BigQuery denotation of
a compiled filter string over metadata rows. -/
def excluder_run (configRows : List (List String)) (customer : String)
    (filterSem : String → YtRow → Bool)
    (report : List AdsRow) (yt : List YtRow) (excluded : List ExclusionRow) :
    Except String (List Action) :=
  match get_config_filters configRows with
  | Except.error e => Except.error e
  | Except.ok filters =>
    Except.ok (excluderTrace customer (filterSem filters) report yt excluded)

/-! ## BatchFetcher chunking
(`split_list_to_chunks`, src/youtube_channel/main.py, lines 237-253) -/

/-- Cut `xs` into consecutive pieces of the given sizes. -/
def splitBySizes {α : Type} : List Nat → List α → List (List α)
  | [], _ => []
  | s :: rest, xs => xs.take s :: splitBySizes rest (xs.drop s)

/-- `numpy.array_split(lst, sections)`: `sections` must be positive
(otherwise ValueError, modelled as `none`); the result has
`len(lst) % sections` pieces of size `len(lst) // sections + 1` followed
by the remaining pieces of size `len(lst) // sections`. -/
def array_split {α : Type} (lst : List α) (sections : Nat) :
    Option (List (List α)) :=
  if sections = 0 then none
  else
    some (splitBySizes
      (List.replicate (lst.length % sections) (lst.length / sections + 1)
        ++ List.replicate (sections - lst.length % sections)
          (lst.length / sections)) lst)

/-- `split_list_to_chunks`: `math.ceil(len(lst) / max_size_of_chunk)`
sections (a ZeroDivisionError when the chunk size is 0, and a
ValueError from `np.array_split` when the list is empty — both `none`). -/
def split_list_to_chunks {α : Type} (lst : List α) (max_size_of_chunk : Nat) :
    Option (List (List α)) :=
  if max_size_of_chunk = 0 then none
  else array_split lst ((lst.length + max_size_of_chunk - 1) / max_size_of_chunk)

/-- The chunked fetch of `get_youtube_dataframe` (lines 159-211):
`split_list_to_chunks(channel_ids, 50)`. -/
def get_youtube_dataframe_chunks (channel_ids : List String) :
    Option (List (List String)) :=
  split_list_to_chunks channel_ids 50

/-- The guard in `run` of src/youtube_channel/main.py (lines 97-111):
`get_youtube_dataframe` is invoked only when `len(channel_ids) > 0`;
otherwise the stage skips the fetch (no chunks). -/
def youtube_run (channel_ids : List String) : Option (List (List String)) :=
  if 0 < channel_ids.length then get_youtube_dataframe_chunks channel_ids
  else some []

/-! ## YouTube response processing
(`process_youtube_response`, src/youtube_channel/main.py, lines 256-296,
and the DataFrame column assignment of `get_youtube_dataframe`,
lines 198-207) -/

/-- The `statistics` part of a YouTube channels-list item; `none` models
an absent key (the Python code reads each with `.get(key, None)`). -/
structure ChannelStatistics where
  viewCount : Option Int
  subscriberCount : Option Int
  videoCount : Option Int
deriving DecidableEq

/-- The `snippet` part of a YouTube channels-list item; the Python code
reads `title` and `country` with `.get(key, '')`. -/
structure ChannelSnippet where
  title : Option String
  country : Option String
deriving DecidableEq

/-- One item of a YouTube channels-list response. -/
structure ChannelItem where
  id : Option String
  statistics : ChannelStatistics
  snippet : ChannelSnippet
deriving DecidableEq

/-- A YouTube channels-list response: `pageInfo.totalResults` and
`items`. -/
structure YouTubeResponse where
  totalResults : Nat
  items : List ChannelItem
deriving DecidableEq

/-- One list appended to `data` by `process_youtube_response`, with one
field per position, in the order the Python code appends them:
`[id, viewCount, subscriberCount, videoCount, title, title_language,
confidence, country]`. -/
structure ChannelDataRow where
  pos0_id : Option String
  pos1_viewCount : Option Int
  pos2_subscriberCount : Option Int
  pos3_videoCount : Option Int
  pos4_title : String
  pos5_titleLanguage : String
  pos6_confidence : Int
  pos7_country : String
deriving DecidableEq

/-- `process_youtube_response`: an empty result when
`pageInfo.totalResults == 0`, otherwise one positional row per item.
`detect` stands for the external `detect_language` call, used only when
`is_translated` is true; `channel_ids` is used by the source only for
logging. -/
def process_youtube_response (response : YouTubeResponse)
    (channel_ids : List String) (is_translated : Bool)
    (detect : String → String × Int) : List ChannelDataRow :=
  let _ := channel_ids
  if response.totalResults = 0 then []
  else
    response.items.map (fun channel =>
      let title := channel.snippet.title.getD ""
      let langConf := if is_translated then detect title else ("", 0)
      { pos0_id := channel.id
        pos1_viewCount := channel.statistics.viewCount
        pos2_subscriberCount := channel.statistics.subscriberCount
        pos3_videoCount := channel.statistics.videoCount
        pos4_title := title
        pos5_titleLanguage := langConf.1
        pos6_confidence := langConf.2
        pos7_country := channel.snippet.country.getD "" })

/-- A row of the output DataFrame of `get_youtube_dataframe`, with the
declared column names in their declared order:
`['channel_id', 'view_count', 'video_count', 'subscriber_count',
'title', 'title_language', 'title_language_confidence', 'country']`. -/
structure YouTubeOutputRow where
  channel_id : Option String
  view_count : Option Int
  video_count : Option Int
  subscriber_count : Option Int
  title : String
  title_language : String
  title_language_confidence : Int
  country : String
deriving DecidableEq

/-- The `pd.DataFrame(channels, columns=[...])` construction: the i-th
element of each appended row becomes the value of the i-th declared
column. -/
def rowToOutput (r : ChannelDataRow) : YouTubeOutputRow :=
  { channel_id := r.pos0_id
    view_count := r.pos1_viewCount
    video_count := r.pos2_subscriberCount
    subscriber_count := r.pos3_videoCount
    title := r.pos4_title
    title_language := r.pos5_titleLanguage
    title_language_confidence := r.pos6_confidence
    country := r.pos7_country }

/-! ## Lemmas: the filter compiler -/

lemma conditionOfRow_eq_none_iff (row : List String) :
    conditionOfRow row = none ↔ row.length ≠ 3 := by
  match row with
  | [] => simp [conditionOfRow]
  | [a] => simp [conditionOfRow]
  | [a, b] => simp [conditionOfRow]
  | [a, b, c] => simp [conditionOfRow]
  | a :: b :: c :: d :: t => simp [conditionOfRow]

lemma filterMap_conditionOfRow_filter (cfg : List (List String)) :
    (cfg.filter (fun r => r.length == 3)).filterMap conditionOfRow
      = cfg.filterMap conditionOfRow := by
  induction cfg with
  | nil => rfl
  | cons row t ih =>
    by_cases h : row.length = 3
    · simp [List.filter_cons, h, List.filterMap_cons, ih]
    · have hn : conditionOfRow row = none := (conditionOfRow_eq_none_iff row).mpr h
      simp [List.filter_cons, h, List.filterMap_cons, hn, ih]

lemma gadsConditionOfRow_eq_none_of_short (row : List String)
    (h : row.length < 3) : gadsConditionOfRow row = none := by
  match row with
  | [] => rfl
  | [a] => rfl
  | [a, b] => rfl
  | a :: b :: c :: t => simp at h; omega

lemma gadsConditions_eq_none_of_mem (cfg : List (List String))
    (row : List String) (hmem : row ∈ cfg)
    (hrow : gadsConditionOfRow row = none) : gadsConditions cfg = none := by
  induction cfg with
  | nil => cases hmem
  | cons r t ih =>
    rcases List.mem_cons.mp hmem with h | h
    · subst h
      simp [gadsConditions, hrow]
    · have := ih h
      simp [gadsConditions, this]

/-! ## Lemmas: Python `strip` and the report query tail -/

lemma data_append (a b : String) : (a ++ b).data = a.data ++ b.data := rfl

lemma dropWhile_append_not {p : Char → Bool} (a b : List Char) (x : Char)
    (hx : p x = false) :
    (a ++ x :: b).dropWhile p = a.dropWhile p ++ x :: b := by
  rw [List.dropWhile_append]
  split
  · next h =>
    rw [List.isEmpty_iff] at h
    rw [h, List.nil_append, List.dropWhile_cons, hx]
    simp
  · rfl

/-- A string of the shape `l ++ '"' ++ whitespace` never has `"AND"` as
the last three characters of its `strip()`. -/
lemma lastThree_pyStrip_ne_AND (s : String) (l W : List Char)
    (hs : s.data = l ++ '"' :: W)
    (hW : ∀ c ∈ W, c.isWhitespace = true) :
    lastThree (pyStrip s) ≠ "AND" := by
  have hq : Char.isWhitespace '"' = false := by decide
  have h1 : s.data.dropWhile Char.isWhitespace
      = l.dropWhile Char.isWhitespace ++ '"' :: W := by
    rw [hs]; exact dropWhile_append_not _ _ _ hq
  have h2 : (s.data.dropWhile Char.isWhitespace).reverse.dropWhile Char.isWhitespace
      = '"' :: (l.dropWhile Char.isWhitespace).reverse := by
    rw [h1, List.reverse_append, List.reverse_cons, List.append_assoc,
      List.singleton_append,
      List.dropWhile_append_of_pos (by
        intro c hc
        exact hW c (List.mem_reverse.mp hc)),
      List.dropWhile_cons, hq]
    simp
  have hps : (pyStrip s).data
      = l.dropWhile Char.isWhitespace ++ ['"'] := by
    show (((s.data.dropWhile Char.isWhitespace).reverse.dropWhile
      Char.isWhitespace).reverse) = _
    rw [h2, List.reverse_cons, List.reverse_reverse]
  have hlt : (lastThree (pyStrip s)).data
      = ((l.dropWhile Char.isWhitespace).reverse.take 2).reverse ++ ['"'] := by
    show ((pyStrip s).data.reverse.take 3).reverse = _
    rw [hps, List.reverse_append, List.reverse_singleton, List.singleton_append,
      List.take_succ_cons, List.reverse_cons]
  intro heq
  have hd : ((l.dropWhile Char.isWhitespace).reverse.take 2).reverse ++ ['"']
      = ['A', 'N', 'D'] := hlt.symm.trans (congrArg String.data heq)
  have hl := congrArg List.getLast? hd
  rw [List.getLast?_concat] at hl
  simp at hl

/-! ## Lemmas: reconciliation -/

lemma none_mem_leftJoinMatches {β : Type} (ms : List β) :
    none ∈ leftJoinMatches ms ↔ ms = [] := by
  unfold leftJoinMatches
  split
  · next h => simp [List.isEmpty_iff.mp h]
  · next h =>
    rw [List.isEmpty_iff] at h
    simp [List.mem_map, h]

lemma some_mem_leftJoinMatches {β : Type} (ms : List β) (b : β) :
    some b ∈ leftJoinMatches ms ↔ b ∈ ms := by
  unfold leftJoinMatches
  split
  · next h => simp [List.isEmpty_iff.mp h]
  · next h => simp

lemma mem_joinedRows_iff (report : List AdsRow) (yt : List YtRow)
    (excluded : List ExclusionRow) (a : AdsRow) (oy : Option YtRow)
    (oe : Option ExclusionRow) :
    (a, oy, oe) ∈ joinedRows report yt excluded ↔
      a ∈ report
        ∧ oy ∈ leftJoinMatches (yt.filter (fun y => y.channel_id == a.channel_id))
        ∧ oe ∈ leftJoinMatches (excluded.filter
            (fun e => e.channel_id == a.channel_id)) := by
  unfold joinedRows
  simp only [List.mem_flatMap, List.mem_map, Prod.mk.injEq]
  constructor
  · rintro ⟨a', ha', oy', hoy', oe', hoe', rfl, rfl, rfl⟩
    exact ⟨ha', hoy', hoe'⟩
  · rintro ⟨ha, hoy, hoe⟩
    exact ⟨a, ha, oy, hoy, oe, hoe, rfl, rfl, rfl⟩

lemma whereClause_eq_true_iff (customer : String) (fh : YtRow → Bool)
    (a : AdsRow) (oy : Option YtRow) (oe : Option ExclusionRow) :
    whereClause customer fh (a, oy, oe) = true ↔
      a.customer_id = customer ∧ oe = none
        ∧ ∃ y, oy = some y ∧ fh y = true := by
  unfold whereClause
  cases oe <;> cases oy <;> simp [Option.isNone]

/-- The rows of the reconciliation query, characterized: a channel id is
selected exactly when some report row of the customer has matching
metadata passing the filters and NO exclusion record (of any customer)
mentions the channel. -/
lemma mem_spamIds (customer : String) (fh : YtRow → Bool)
    (report : List AdsRow) (yt : List YtRow) (excluded : List ExclusionRow)
    (oc : Option String) :
    oc ∈ spamIds customer fh report yt excluded ↔
      ∃ a ∈ report, ∃ y ∈ yt,
        a.customer_id = customer
        ∧ y.channel_id = a.channel_id
        ∧ fh y = true
        ∧ (∀ e ∈ excluded, e.channel_id ≠ a.channel_id)
        ∧ oc = some y.channel_id := by
  unfold spamIds
  rw [List.mem_dedup]
  simp only [List.mem_map, List.mem_filter]
  constructor
  · rintro ⟨⟨a, oy, oe⟩, ⟨hmem, hwhere⟩, rfl⟩
    obtain ⟨ha, hoy, hoe⟩ := (mem_joinedRows_iff _ _ _ _ _ _).mp hmem
    obtain ⟨hcust, rfl, y, rfl, hfh⟩ :=
      (whereClause_eq_true_iff _ _ _ _ _).mp hwhere
    have hy : y ∈ yt.filter (fun y => y.channel_id == a.channel_id) :=
      (some_mem_leftJoinMatches _ _).mp hoy
    have hynil := (none_mem_leftJoinMatches _).mp hoe
    rw [List.filter_eq_nil_iff] at hynil
    refine ⟨a, ha, y, (List.mem_filter.mp hy).1, hcust,
      by simpa using (List.mem_filter.mp hy).2, hfh, ?_, rfl⟩
    intro e he
    simpa using hynil e he
  · rintro ⟨a, ha, y, hy, hcust, hchan, hfh, hexcl, rfl⟩
    refine ⟨(a, some y, none), ⟨?_, ?_⟩, rfl⟩
    · rw [mem_joinedRows_iff]
      refine ⟨ha, ?_, ?_⟩
      · rw [some_mem_leftJoinMatches, List.mem_filter]
        exact ⟨hy, by simpa using hchan⟩
      · rw [none_mem_leftJoinMatches, List.filter_eq_nil_iff]
        intro e he
        simpa using hexcl e he
    · rw [whereClause_eq_true_iff]
      exact ⟨hcust, rfl, y, rfl, hfh⟩

lemma get_spam_placements_eq_some {customer : String} {fh : YtRow → Bool}
    {report : List AdsRow} {yt : List YtRow} {excluded : List ExclusionRow}
    {ps : List (Option String)} :
    get_spam_placements customer fh report yt excluded = some ps ↔
      spamIds customer fh report yt excluded = ps ∧ ps ≠ [] := by
  unfold get_spam_placements
  split
  · next h =>
    rw [List.isEmpty_iff] at h
    simp [h]
  · next h =>
    rw [List.isEmpty_iff] at h
    simp only [Option.some.injEq]
    constructor
    · rintro rfl
      exact ⟨rfl, h⟩
    · rintro ⟨rfl, _⟩
      rfl

/-! ## Claims C1, C2, C3 -/

/-- C1: in every Excluder run that finds a non-empty list of new
placements, the effect trace is exactly the BigQuery read, then the
ad-platform mutation, then the exclusion-history append (the mutation
strictly precedes the append); a crash after the first two effects
leaves the history unchanged, and reconciliation over that unchanged
history returns the same placements again. -/
theorem C1_mutation_before_history (customer : String) (fh : YtRow → Bool)
    (report : List AdsRow) (yt : List YtRow) (excluded : List ExclusionRow)
    (ps : List (Option String))
    (h : get_spam_placements customer fh report yt excluded = some ps) :
    ps ≠ []
      ∧ excluderTrace customer fh report yt excluded
          = [Action.bigQueryFetch customer, Action.adsMutation ps,
             Action.historyAppend customer ps]
      ∧ applyActions ((excluderTrace customer fh report yt excluded).take 2)
          excluded = excluded
      ∧ get_spam_placements customer fh report yt
          (applyActions ((excluderTrace customer fh report yt excluded).take 2)
            excluded) = some ps := by
  obtain ⟨_, hne⟩ := get_spam_placements_eq_some.mp h
  have hlen : 0 < ps.length := List.length_pos.mpr hne
  have htrace : excluderTrace customer fh report yt excluded
      = [Action.bigQueryFetch customer, Action.adsMutation ps,
         Action.historyAppend customer ps] := by
    unfold excluderTrace
    rw [h]
    simp [hlen]
  refine ⟨hne, htrace, ?_, ?_⟩
  · rw [htrace]
    rfl
  · rw [htrace]
    exact h

/-- C1 witness: a run with one new spam placement, applied to the
theorem. -/
theorem C1_witness :
    get_spam_placements "1111111111" (fun _ => true)
        [{ customer_id := "1111111111", channel_id := "chan-spam" }]
        [{ channel_id := "chan-spam", view_count := some 5,
           subscriber_count := some 5, video_count := some 5 }]
        [] = some [some "chan-spam"]
      ∧ ([some "chan-spam"] : List (Option String)) ≠ [] := by
  have h : get_spam_placements "1111111111" (fun _ => true)
      [{ customer_id := "1111111111", channel_id := "chan-spam" }]
      [{ channel_id := "chan-spam", view_count := some 5,
         subscriber_count := some 5, video_count := some 5 }]
      [] = some [some "chan-spam"] := by decide
  exact ⟨h, (C1_mutation_before_history "1111111111" (fun _ => true) _ _ _
    [some "chan-spam"] h).1⟩

/-- C2: if a reconciliation run returns placements `ps`, then appending
the corresponding exclusion rows to the history and re-running
reconciliation with the report and metadata sources unchanged returns
`None` (the benign "There is nothing to update" outcome). -/
theorem C2_reconcile_idempotent (customer : String) (fh : YtRow → Bool)
    (report : List AdsRow) (yt : List YtRow) (excluded : List ExclusionRow)
    (ps : List (Option String))
    (h : get_spam_placements customer fh report yt excluded = some ps) :
    get_spam_placements customer fh report yt
      (excluded ++ appendedRecords customer ps) = none := by
  obtain ⟨hid, _⟩ := get_spam_placements_eq_some.mp h
  have hempty : spamIds customer fh report yt
      (excluded ++ appendedRecords customer ps) = [] := by
    rw [List.eq_nil_iff_forall_not_mem]
    intro oc hoc
    obtain ⟨a, ha, y, hy, hcust, hchan, hfh, hexcl, rfl⟩ :=
      (mem_spamIds _ _ _ _ _ _).mp hoc
    have hmem1 : some y.channel_id ∈ spamIds customer fh report yt excluded := by
      rw [mem_spamIds]
      exact ⟨a, ha, y, hy, hcust, hchan, hfh,
        fun e he => hexcl e (List.mem_append_left _ he), rfl⟩
    rw [hid] at hmem1
    have hrec : ({ channel_id := y.channel_id, customer_id := customer }
        : ExclusionRow) ∈ appendedRecords customer ps := by
      rw [appendedRecords, List.mem_filterMap]
      exact ⟨some y.channel_id, hmem1, rfl⟩
    have := hexcl _ (List.mem_append_right _ hrec)
    simp at this
    exact this (hchan)
  unfold get_spam_placements
  rw [hempty]
  rfl

/-- C2 witness: a concrete run whose returned placement, once appended,
makes the second run return `None`. -/
theorem C2_witness :
    get_spam_placements "1111111111" (fun _ => true)
      [{ customer_id := "1111111111", channel_id := "chan-spam" }]
      [{ channel_id := "chan-spam", view_count := some 5,
         subscriber_count := some 5, video_count := some 5 }]
      ([] ++ appendedRecords "1111111111" [some "chan-spam"]) = none :=
  C2_reconcile_idempotent "1111111111" (fun _ => true) _ _ []
    [some "chan-spam"] (by decide)

/-- C3 counterexample: a placement excluded only under customer
1111111111 is NOT returned by reconciliation for customer 2222222222 —
the query filters on `Excluded.channel_id IS NULL` after a join keyed
only on `channel_id`, so an exclusion row of any customer removes the
channel for every customer. -/
theorem C3_counterexample :
    get_spam_placements "2222222222" (fun _ => true)
      [{ customer_id := "2222222222", channel_id := "chan-p" }]
      [{ channel_id := "chan-p", view_count := some 5,
         subscriber_count := some 5, video_count := some 5 }]
      [{ channel_id := "chan-p", customer_id := "1111111111" }] = none := by
  decide

/-- C3 (amended): the exclusion history behaves as a GLOBAL set of
channel ids, not a per-customer set: whenever reconciliation for any
customer returns a list of ids, no channel that has an exclusion record
under ANY customer appears in it. -/
theorem C3_history_global (customer : String) (fh : YtRow → Bool)
    (report : List AdsRow) (yt : List YtRow) (excluded : List ExclusionRow)
    (ids : List (Option String))
    (h : get_spam_placements customer fh report yt excluded = some ids)
    (e : ExclusionRow) (he : e ∈ excluded) :
    some e.channel_id ∉ ids := by
  obtain ⟨hid, _⟩ := get_spam_placements_eq_some.mp h
  rw [← hid]
  intro hmem
  obtain ⟨a, _, y, _, _, hchan, _, hexcl, hoc⟩ :=
    (mem_spamIds _ _ _ _ _ _).mp hmem
  have hce : e.channel_id = y.channel_id := by
    simpa using hoc
  exact hexcl e he (hce.trans hchan)

/-- C3 witness: the amended theorem applied to the counterexample
configuration. -/
theorem C3_witness :
    some ({ channel_id := "chan-p", customer_id := "1111111111" }
        : ExclusionRow).channel_id ∉ ([some "chan-q"] : List (Option String)) :=
  C3_history_global "2222222222" (fun _ => true)
    [{ customer_id := "2222222222", channel_id := "chan-p" },
     { customer_id := "2222222222", channel_id := "chan-q" }]
    [{ channel_id := "chan-p", view_count := some 5,
       subscriber_count := some 5, video_count := some 5 },
     { channel_id := "chan-q", view_count := some 5,
       subscriber_count := some 5, video_count := some 5 }]
    [{ channel_id := "chan-p", customer_id := "1111111111" }]
    [some "chan-q"] (by decide)
    { channel_id := "chan-p", customer_id := "1111111111" } (by decide)

/-! ## Lemmas: chunking -/

lemma flatten_splitBySizes {α : Type} (sizes : List Nat) (xs : List α) :
    (splitBySizes sizes xs).flatten = xs.take sizes.sum := by
  induction sizes generalizing xs with
  | nil => simp [splitBySizes]
  | cons s rest ih =>
    simp [splitBySizes, ih, List.take_add]

lemma mem_splitBySizes {α : Type} (sizes : List Nat) (xs : List α)
    (ch : List α) (h : ch ∈ splitBySizes sizes xs) :
    ∃ s ∈ sizes, ch.length ≤ s := by
  induction sizes generalizing xs with
  | nil => cases h
  | cons s rest ih =>
    rcases List.mem_cons.mp h with h1 | h1
    · refine ⟨s, List.mem_cons_self _ _, ?_⟩
      rw [h1, List.length_take]
      exact min_le_left _ _
    · obtain ⟨s', hs', hle⟩ := ih _ h1
      exact ⟨s', List.mem_cons_of_mem _ hs', hle⟩

/-- `split_list_to_chunks` on a non-empty list with a positive chunk
size: it succeeds, concatenating the chunks gives back the input, and
every chunk has at most `max_size_of_chunk` elements. -/
lemma split_list_to_chunks_spec {α : Type} (lst : List α) (c : Nat)
    (hc : 1 ≤ c) (hne : lst ≠ []) :
    ∃ cs, split_list_to_chunks lst c = some cs
      ∧ cs.flatten = lst
      ∧ (∀ ch ∈ cs, ch.length ≤ c) := by
  have hl : 1 ≤ lst.length := List.length_pos.mpr hne
  set l := lst.length with hldef
  set n := (l + c - 1) / c with hndef
  have hn : 1 ≤ n := by
    rw [hndef, Nat.one_le_div_iff (by omega)]
    omega
  -- l ≤ n * c
  have hlnc : l ≤ n * c := by
    have hdm := Nat.div_add_mod (l + c - 1) c
    have hmlt : (l + c - 1) % c < c := Nat.mod_lt _ (by omega)
    rw [← hndef] at hdm
    have e1 : c * n = n * c := Nat.mul_comm c n
    generalize n * c = A at *
    omega
  set b := l / n with hbdef
  set r := l % n with hrdef
  have hrlt : r < n := by
    rw [hrdef]
    exact Nat.mod_lt _ (by omega)
  have hbc : b ≤ c := by
    have h1 : l / n < c + 1 := by
      rw [Nat.div_lt_iff_lt_mul (by omega : 0 < n)]
      have : (c + 1) * n = n * c + n := by ring
      omega
    omega
  have hbc1 : r ≠ 0 → b + 1 ≤ c := by
    intro hr0
    by_contra hgt
    have hcb : c ≤ b := by omega
    have h1 : c * n ≤ l := by
      rw [← Nat.le_div_iff_mul_le (by omega : 0 < n)]
      exact hcb
    have h2 : l = c * n := by
      have : c * n = n * c := Nat.mul_comm c n
      omega
    apply hr0
    rw [hrdef, h2]
    exact Nat.mul_mod_left c n
  have hsum : (List.replicate r (b + 1) ++ List.replicate (n - r) b).sum = l := by
    rw [List.sum_append, List.sum_replicate, List.sum_replicate,
      smul_eq_mul, smul_eq_mul]
    have hdm : n * b + r = l := by
      rw [hbdef, hrdef]
      exact Nat.div_add_mod l n
    have e1 : r * (b + 1) = r * b + r := by ring
    have e2 : (n - r) * b = n * b - r * b := Nat.sub_mul n r b
    have e3 : r * b ≤ n * b := Nat.mul_le_mul_right b (le_of_lt hrlt)
    generalize r * b = rb at *
    generalize n * b = nb at *
    omega
  refine ⟨splitBySizes
      (List.replicate r (b + 1) ++ List.replicate (n - r) b) lst, ?_, ?_, ?_⟩
  · unfold split_list_to_chunks array_split
    rw [if_neg (by omega : ¬c = 0), ← hndef, if_neg (by omega : ¬n = 0),
      ← hldef, ← hbdef, ← hrdef]
  · rw [flatten_splitBySizes, hsum, hldef, List.take_length]
  · intro ch hch
    obtain ⟨s, hs, hle⟩ := mem_splitBySizes _ _ _ hch
    rcases List.mem_append.mp hs with hs1 | hs1
    · have hr0 : r ≠ 0 := by
        intro h0
        rw [h0] at hs1
        simp at hs1
      have := List.eq_of_mem_replicate hs1
      omega
    · have := List.eq_of_mem_replicate hs1
      omega

/-! ## Claim C8 -/

/-- C8: evaluation of the metadata mapping at a failing input.  The
source appends `[id, viewCount, subscriberCount, videoCount, ...]` but
declares the DataFrame columns as `[channel_id, view_count, video_count,
subscriber_count, ...]`, so a channel with `viewCount = 1`,
`subscriberCount = 2`, `videoCount = 3` is stored with
`view_count = 1`, `video_count = 2` (the SUBSCRIBER count) and
`subscriber_count = 3` (the VIDEO count); absent fields do default to
typed zero values (empty string for text, null for numeric) and the
record is kept. -/
theorem C8_count_columns_swapped :
    ((process_youtube_response
        { totalResults := 1,
          items := [{ id := some "chan-a",
                      statistics := { viewCount := some 1,
                                      subscriberCount := some 2,
                                      videoCount := some 3 },
                      snippet := { title := some "t",
                                   country := some "US" } }] }
        ["chan-a"] false (fun _ => ("", 0))).map rowToOutput
      = [{ channel_id := some "chan-a", view_count := some 1,
           video_count := some 2, subscriber_count := some 3,
           title := "t", title_language := "",
           title_language_confidence := 0, country := "US" }])
    ∧ ((process_youtube_response
        { totalResults := 1,
          items := [{ id := some "chan-b",
                      statistics := { viewCount := none,
                                      subscriberCount := none,
                                      videoCount := none },
                      snippet := { title := none, country := none } }] }
        ["chan-b"] false (fun _ => ("", 0))).map rowToOutput
      = [{ channel_id := some "chan-b", view_count := none,
           video_count := none, subscriber_count := none,
           title := "", title_language := "",
           title_language_confidence := 0, country := "" }]) :=
  ⟨rfl, rfl⟩

/-! ## Claims C7, C10 -/

/-- C7 counterexample: at the empty id set the chunking function does
not return a partition at all — `math.ceil(0 / c) = 0` sections and
`np.array_split` raises ValueError (modelled as `none`), so the claimed
universal property fails at `S = ∅`. -/
theorem C7_counterexample :
    split_list_to_chunks ([] : List String) 1 = none := rfl

/-- C7 (amended): for every chunk size `c ≥ 1` and every NON-EMPTY
duplicate-free id list, the chunk partition exists and satisfies: the
chunks concatenate back to the input (no id dropped or duplicated), the
chunk lengths sum to the number of distinct ids, every chunk has size at
most `c`, and the chunks are pairwise disjoint.  (At the empty id set
the function raises instead of returning zero chunks.) -/
theorem C7_chunk_partition {α : Type} (lst : List α) (c : Nat)
    (hc : 1 ≤ c) (hne : lst ≠ []) (hnd : lst.Nodup) :
    ∃ cs, split_list_to_chunks lst c = some cs
      ∧ cs.flatten = lst
      ∧ (cs.map List.length).sum = lst.length
      ∧ (∀ ch ∈ cs, ch.length ≤ c)
      ∧ List.Pairwise List.Disjoint cs := by
  obtain ⟨cs, hcs, hflat, hsize⟩ := split_list_to_chunks_spec lst c hc hne
  refine ⟨cs, hcs, hflat, ?_, hsize, ?_⟩
  · rw [← List.length_flatten, hflat]
  · have : cs.flatten.Nodup := by
      rw [hflat]
      exact hnd
    exact (List.nodup_flatten.mp this).2

/-- C7 witness: the amended theorem applied to a concrete id list. -/
theorem C7_witness :
    ∃ cs, split_list_to_chunks (["a", "b", "c"] : List String) 2 = some cs
      ∧ cs.flatten = ["a", "b", "c"]
      ∧ (cs.map List.length).sum = (["a", "b", "c"] : List String).length
      ∧ (∀ ch ∈ cs, ch.length ≤ 2)
      ∧ List.Pairwise List.Disjoint cs :=
  C7_chunk_partition ["a", "b", "c"] 2 (by decide) (by decide) (by decide)

/-- C10: `split_list_to_chunks` fails on the empty list (zero sections
for `np.array_split`), succeeds on every non-empty list with the
pipeline's chunk size 50, and the `len(channel_ids) > 0` guard in `run`
makes the failure branch unreachable: the enrichment stage never hits
the error. -/
theorem C10_split_guard :
    split_list_to_chunks ([] : List String) 50 = none
      ∧ (∀ ids : List String, ids ≠ [] →
          (split_list_to_chunks ids 50).isSome = true)
      ∧ (∀ ids : List String, (youtube_run ids).isSome = true) := by
  refine ⟨rfl, ?_, ?_⟩
  · intro ids hne
    obtain ⟨cs, hcs, -, -⟩ := split_list_to_chunks_spec ids 50 (by omega) hne
    rw [hcs]
    rfl
  · intro ids
    unfold youtube_run
    split
    · next h =>
      have hne : ids ≠ [] := by
        intro h0
        rw [h0] at h
        simp at h
      unfold get_youtube_dataframe_chunks
      obtain ⟨cs, hcs, -, -⟩ := split_list_to_chunks_spec ids 50 (by omega) hne
      rw [hcs]
      rfl
    · rfl

/-- C10 witness: the guarded run and the chunker applied at concrete
inputs. -/
theorem C10_witness :
    (split_list_to_chunks (["a"] : List String) 50).isSome = true :=
  C10_split_guard.2.1 ["a"] (by decide)

/-! ## Claims C4, C5, C6, C9 -/

set_option maxRecDepth 8000 in
/-- C4 counterexample: with the empty-string predicate (as opposed to
an absent one) the generated report query does end with a dangling
`AND` after `strip()`. -/
theorem C4_counterexample :
    lastThree (pyStrip (get_report_query 90 (some "") ⟨2022, 7, 1⟩)) = "AND" := by
  decide

/-- C4 (amended): for every lookback window and date, when no filter
predicate is supplied (`gads_filters is None`) the generated report
query never ends with a dangling `AND`: `query.strip()[-3:] != "AND"`.
(With an empty-string predicate the query does end with `AND`.) -/
theorem C4_no_dangling_and (lookback_days : Nat) (today : Date) :
    (lastThree (pyStrip (get_report_query lookback_days none today)) == "AND")
      = false := by
  rw [beq_eq_false_iff_ne]
  apply lastThree_pyStrip_ne_AND _
    (reportQueryBody ++ (get_query_dates lookback_days today).1 ++ "\" AND \""
      ++ (get_query_dates lookback_days today).2).data
    ("\n            \n    ").data
  · show ((reportQueryBody ++ (get_query_dates lookback_days today).1
        ++ "\" AND \"" ++ (get_query_dates lookback_days today).2)
      ++ ("\"\n            " ++ "" ++ "\n    ")).data = _
    rw [data_append]
    congr 1
  · decide

/-- C4 witness: the amended theorem applied at a concrete window. -/
theorem C4_witness :
    (lastThree (pyStrip (get_report_query 90 none ⟨2022, 7, 1⟩)) == "AND")
      = false :=
  C4_no_dangling_and 90 ⟨2022, 7, 1⟩

/-- C5 counterexample: the Google-Ads-side compiler does not satisfy the
claimed contract: it prefixes `metrics.` to the field, and a malformed
row raises (IndexError) instead of being silently dropped. -/
theorem C5_counterexample :
    gads_filters_to_gaql_string [["impressions", ">", "1"]]
        = some "metrics.impressions > 1"
      ∧ gads_filters_to_gaql_string [["impressions", ">", "1"]]
        ≠ some "impressions > 1"
      ∧ gads_filters_to_gaql_string [["impressions", ">"]] = none := by
  refine ⟨rfl, ?_, rfl⟩
  decide

/-- C5 (amended): the YouTube-side compiler
`youtube_filters_to_sql_string` silently drops every row whose length is
not 3 and joins the remaining rows in order as `field op value`
fragments separated by `" AND "`, with the two claimed example outputs;
the Google-Ads-side compiler `gads_filters_to_gaql_string` instead
emits `metrics.field op value` fragments and raises on any row with
fewer than 3 cells. -/
theorem C5_filter_compiler :
    (∀ cfg : List (List String),
      youtube_filters_to_sql_string cfg
        = youtube_filters_to_sql_string (cfg.filter (fun r => r.length == 3)))
    ∧ youtube_filters_to_sql_string [["impressions", ">", "1"]]
        = "impressions > 1"
    ∧ youtube_filters_to_sql_string [["impressions", ">", "1"], ["clicks", "<", "50"]]
        = "impressions > 1 AND clicks < 50"
    ∧ gads_filters_to_gaql_string [["impressions", ">", "1"]]
        = some "metrics.impressions > 1"
    ∧ (∀ (cfg : List (List String)) (row : List String),
        row ∈ cfg → row.length < 3 → gads_filters_to_gaql_string cfg = none) := by
  refine ⟨?_, rfl, rfl, rfl, ?_⟩
  · intro cfg
    unfold youtube_filters_to_sql_string
    rw [filterMap_conditionOfRow_filter]
  · intro cfg row hmem hlen
    unfold gads_filters_to_gaql_string
    rw [gadsConditions_eq_none_of_mem cfg row hmem
      (gadsConditionOfRow_eq_none_of_short row hlen)]
    rfl

/-- C5 witness: the amended theorem applied at concrete inputs. -/
theorem C5_witness : gads_filters_to_gaql_string [["clicks"]] = none :=
  C5_filter_compiler.2.2.2.2 [["clicks"]] ["clicks"] (by decide) (by decide)

/-- C6: when zero valid filter rows remain, the compiler returns the
empty string (it does not raise); `get_config_filters` then fails with
the configuration error `"Filters are not set"`, and the Excluder stage
aborts before its BigQuery read, ad-platform mutation, or history
append. -/
theorem C6_empty_filters (rows : List (List String))
    (h : ∀ row ∈ rows, row.length ≠ 3) :
    youtube_filters_to_sql_string rows = ""
      ∧ get_config_filters rows = Except.error "Filters are not set"
      ∧ ∀ (customer : String) (filterSem : String → YtRow → Bool)
          (report : List AdsRow) (yt : List YtRow)
          (excluded : List ExclusionRow),
          excluder_run rows customer filterSem report yt excluded
            = Except.error "Filters are not set" := by
  have hnil : rows.filterMap conditionOfRow = [] := by
    rw [List.filterMap_eq_nil_iff]
    intro row hmem
    exact (conditionOfRow_eq_none_iff row).mpr (h row hmem)
  have hempty : youtube_filters_to_sql_string rows = "" := by
    unfold youtube_filters_to_sql_string
    rw [hnil]
    rfl
  have hcfg : get_config_filters rows = Except.error "Filters are not set" := by
    unfold get_config_filters
    rw [hempty]
    rfl
  refine ⟨hempty, hcfg, ?_⟩
  intro customer filterSem report yt excluded
  unfold excluder_run
  rw [hcfg]

/-- C6 witness: the theorem applied to a configuration with only
malformed rows. -/
theorem C6_witness :
    get_config_filters [["impressions", ">"]]
      = Except.error "Filters are not set" :=
  (C6_empty_filters [["impressions", ">"]] (by decide)).2.1

/-- C9: the report date window is
`(today - timedelta(days=lookback_days), today)`, each formatted as
`YYYY-MM-DD`; in particular for `lookback_days = 90` and
`today = 2022-07-01` the window is `("2022-04-02", "2022-07-01")`. -/
theorem C9_date_window :
    (∀ (lookback_days : Nat) (today : Date),
      get_query_dates lookback_days today
        = (formatDate (subDays today lookback_days), formatDate today))
    ∧ get_query_dates 90 ⟨2022, 7, 1⟩ = ("2022-04-02", "2022-07-01") := by
  exact ⟨fun _ _ => rfl, by decide⟩

end APE
